import Mathlib

/-!
Verification of the Clover POS payment protocol (`payment_clover.js`).

Shallow embedding of the `PaymentClover` class from
`src/static/src/app/utils/payment/payment_clover.js`.

Modelling conventions:
* JS objects with optional fields become Lean structures with `Option` fields;
  a missing / `undefined` / `null` field is `none`.  JS truthiness of an
  object-valued field is `Option.isSome`; truthiness of the numeric
  `payment.amount` is "present and nonzero" (`0` is falsy in JS).
* The boolean-ish `success` flag is modelled as `Bool` (truthy / falsy).
* Monetary amounts are modelled as exact rationals `ℚ` (the minor-unit
  precision view of the JS numbers taken by the spec); minor-unit wire amounts
  are integers `ℤ`.
* The mutable instance state (the pending payment line, the
  `paymentLineResolvers` table, dialogs shown, proxy calls made, resolver
  invocations) is an explicit `PosState` record threaded through the
  functions.  Promise resolvers are identified by a fresh `Nat` id; calling
  a resolver is recorded in `resolutions`; the external
  `line.handlePaymentResponse(isSuccess)` call is recorded on the `handled`
  list of the line.
* Proxy round trips (`pos.data.silentCall`) are inputs: each modelled call
  takes the proxy answer as an `Except String (Option Raw)` parameter
  (`.error e` = transport-level rejection carrying the thrown error).
-/

namespace CloverPos

/-- The `error` sub-object of a Clover response (`response.error`). -/
structure ErrObj where
  message : Option String := none
  status_code : Option Int := none
deriving DecidableEq, Repr

/-- The `cardTransaction` sub-object of a Clover payment
(`payment.cardTransaction.{cardType,type,referenceId,cardholderName,last4,authCode}`). -/
structure CardTx where
  cardType : Option String := none
  type : Option String := none
  referenceId : Option String := none
  cardholderName : Option String := none
  last4 : Option String := none
  authCode : Option String := none
deriving DecidableEq, Repr

/-- The fields the code reads off a payment object (`response.payment` or the
notification itself when no `payment` sub-object is present):
`result`, `failureMessage`, `reason`, `id`, `amount`, `order?.id`,
`cardTransaction`.  `order_id` flattens `payment.order?.id`. -/
structure Payment where
  result : Option String := none
  failureMessage : Option String := none
  reason : Option String := none
  id : Option String := none
  amount : Option Int := none
  order_id : Option String := none
  cardTransaction : Option CardTx := none
deriving DecidableEq, Repr

/-- A raw Clover response / notification payload, with every field the code
inspects.  The same JS object can be read both as a response and (via
`Raw.asPayment`) as a payment, so the payment-level fields also appear
at top level. -/
structure Raw where
  error : Option ErrObj := none
  success : Bool := false
  result : Option String := none
  status : Option String := none
  message : Option String := none
  reason : Option String := none
  failureMessage : Option String := none
  id : Option String := none
  amount : Option Int := none
  order_id : Option String := none
  cardTransaction : Option CardTx := none
  payment : Option Payment := none
deriving DecidableEq, Repr

/-- Reading a raw notification object itself as a payment (the `notification`
branch of `notification.payment || notification`). -/
def Raw.asPayment (r : Raw) : Payment :=
  { result := r.result
    failureMessage := r.failureMessage
    reason := r.reason
    id := r.id
    amount := r.amount
    order_id := r.order_id
    cardTransaction := r.cardTransaction }

/-- `response.payment || response` (JS: the `payment` sub-object if present,
else the object itself). -/
def effPayment (r : Raw) : Payment :=
  match r.payment with
  | some p => p
  | none => r.asPayment

/-- JS `a || b` on two optional strings (first present value wins). -/
def firstSome (a b : Option String) : Option String :=
  match a with
  | some x => some x
  | none => b

/-- Outcome bucket of the response classification cascade in
`_cloverHandleResponse` (lines 116-150). -/
inductive Outcome where
  | success
  | pending
  | declined (msg : String)
  | terminalError (msg : String)
deriving DecidableEq, Repr

/-- The pure classification cascade of `_cloverHandleResponse`, in source
order (first match wins):
1. falsy response → terminal error "No response received from Clover terminal.";
2. `response.error` → terminal error (authentication message when
   `error.status_code === 401`, else `Clover error: <message>`);
3. `response.success`, or a result of "SUCCESS", or a present `response.payment` → success;
4. a status or result of "PENDING" → pending;
5. otherwise declined with `response.message || response.reason ||
   "Payment was not approved"`. -/
def classifySync : Option Raw → Outcome
  | none => .terminalError "No response received from Clover terminal."
  | some r =>
    match r.error with
    | some e =>
      if e.status_code = some 401 then
        .terminalError "Authentication failed. Please check your Clover credentials."
      else
        .terminalError ("Clover error: " ++ (e.message.getD "Unknown error"))
    | none =>
      if r.success || decide (r.result = some "SUCCESS") || r.payment.isSome then
        .success
      else if decide (r.status = some "PENDING") || decide (r.result = some "PENDING") then
        .pending
      else
        .declined ((firstSome r.message r.reason).getD "Payment was not approved")

/-- The inline success test of `handleCloverStatusResponse` (lines 216-217):
a payment result of "SUCCESS" or a truthy `notification.success`, where
`payment = notification.payment || notification`. -/
def asyncIsSuccess (n : Raw) : Bool :=
  decide ((effPayment n).result = some "SUCCESS") || n.success

/-- JS `Math.round` on an exact rational: `Math.round(x) = ⌊x + 0.5⌋`
(halves round toward +∞, as in JS). -/
def jsRound (q : ℚ) : ℤ := ⌊q + 1 / 2⌋

/-- The `sale` payload built by `_cloverPayData` (lines 70-84):
amount in integer minor units via `Math.round(line.amount * 100)`, currency
name, correlation id `` `${order.uuid}--${order.session_id.id}` ``, order
name, note, and the two auto-accept flags. -/
structure PayData where
  amount : ℤ
  currency : String
  externalPaymentId : String
  orderId : String
  note : String
  autoAcceptPaymentConfirmations : Bool
  autoAcceptSignature : Bool
deriving DecidableEq, Repr

/-- A payment line of the order, as mutated by the Clover integration: its
identity (`uuid`), amount, payment status, and the settlement fields written
by `_handleSuccessResponse`.  `receiptInfo` records `setReceiptInfo` calls;
`handled` records direct `handlePaymentResponse(isSuccess)` calls made by the
fallback path of `handleCloverStatusResponse`. -/
structure Line where
  uuid : String := "line-uuid"
  amount : ℚ := 0
  status : Option String := none
  card_type : Option String := none
  transaction_id : Option String := none
  cardholder_name : Option String := none
  receiptInfo : List String := []
  clover_payment_id : Option String := none
  clover_order_id : Option String := none
  clover_result : Option String := none
  clover_amount : Option ℚ := none
  clover_auth_code : Option String := none
  clover_card_type : Option String := none
  clover_card_last_four : Option String := none
  handled : List Bool := []
deriving DecidableEq, Repr

/-- Association-list lookup over the `paymentLineResolvers` table
(`this.paymentLineResolvers[uuid]`).  Resolvers are identified by `Nat` ids. -/
def lookupRes : List (String × Nat) → String → Option Nat
  | [], _ => none
  | (k, v) :: rest, u => if k = u then some v else lookupRes rest u

/-- Association-list write `this.paymentLineResolvers[uuid] = resolve`
(JS object semantics: update in place when the key exists, append otherwise). -/
def setRes : List (String × Nat) → String → Nat → List (String × Nat)
  | [], u, i => [(u, i)]
  | (k, v) :: rest, u, i =>
    if k = u then (u, i) :: rest else (k, v) :: setRes rest u i

/-- Association-list delete `delete this.paymentLineResolvers[uuid]`. -/
def delRes (l : List (String × Nat)) (u : String) : List (String × Nat) :=
  l.filter (fun p => !(p.1 == u))

/-- The state of a `PaymentClover` instance together with the order context
and the observable effects of a run:
* `line` — the clover payment line of the current order (the one
  `_cloverPay` finds by uuid); `linePending` — whether
  `pos.getPendingPaymentLine("clover")` still returns it;
* `resolvers` / `nextResolverId` — the `paymentLineResolvers` table with
  fresh resolver ids; `resolutions` records resolver invocations
  `(resolver id, value)`;
* `errors` — dialogs opened by `_showError`, in order;
* `proxyCalls` — proxied operations sent, `(operation, sale payload)`;
* order/session context used by `_cloverPayData`. -/
structure PosState where
  line : Line := {}
  linePending : Bool := false
  resolvers : List (String × Nat) := []
  nextResolverId : Nat := 0
  resolutions : List (Nat × Bool) := []
  errors : List String := []
  proxyCalls : List (String × Option PayData) := []
  currencyName : String := "USD"
  orderUuid : String := "order-uuid"
  sessionId : String := "1"
  orderName : String := "Order 0001"
deriving DecidableEq, Repr

/-- `_showError(message)` (lines 262-267): open an alert dialog with the
message. -/
def showError (st : PosState) (msg : String) : PosState :=
  { st with errors := st.errors ++ [msg] }

/-- `line.setPaymentStatus(s)` on the modelled line. -/
def setStatus (st : PosState) (s : String) : PosState :=
  { st with line := { st.line with status := some s } }

/-- `pendingCloverLine()` (lines 36-38): the pending clover payment line,
if any. -/
def pendingCloverLine (st : PosState) : Option Line :=
  if st.linePending then some st.line else none

/-- `_handleOdooConnectionFailure(data)` (lines 43-52): move the pending
line (if any) to `retry`, show the connectivity error, and reject with
`data` (the rejection itself is returned by the caller, `callClover`). -/
def handleOdooConnectionFailure (st : PosState) : PosState :=
  let st :=
    match pendingCloverLine st with
    | some _ => setStatus st "retry"
    | none => st
  showError st
    "Could not connect to the Odoo server. Please check your internet connection and try again."

/-- `_callClover(data, operation)` (lines 57-65): proxy the request and
convert any transport-level rejection through
`_handleOdooConnectionFailure`, re-rejecting with the original error.
The proxy answer is the `res` input. -/
def callClover (st : PosState) (data : Option PayData) (operation : String)
    (res : Except String (Option Raw)) : PosState × Except String (Option Raw) :=
  let st := { st with proxyCalls := st.proxyCalls ++ [(operation, data)] }
  match res with
  | .ok r => (st, .ok r)
  | .error e => (handleOdooConnectionFailure st, .error e)

/-- `_cloverPayData()` (lines 70-84). -/
def cloverPayData (st : PosState) : PayData :=
  { amount := jsRound (st.line.amount * 100)
    currency := st.currencyName
    externalPaymentId := st.orderUuid ++ "--" ++ st.sessionId
    orderId := st.orderName
    note := "POS Order: " ++ st.orderName
    autoAcceptPaymentConfirmations := true
    autoAcceptSignature := true }

/-- `waitForPaymentConfirmation(line)` (lines 189-193): park a fresh
one-shot resolver for the uuid of the line in `paymentLineResolvers`
(a plain object write — an existing resolver for the same uuid is
silently overwritten). -/
def waitForPaymentConfirmation (st : PosState) (uuid : String) : PosState :=
  { st with
    resolvers := setRes st.resolvers uuid st.nextResolverId
    nextResolverId := st.nextResolverId + 1 }

/-- Result of `_cloverPay` / `_cloverHandleResponse`: a settled boolean,
a still-awaiting confirmation promise, or a rejection. -/
inductive PayResult where
  | done (b : Bool)
  | awaiting
  | rejected (e : String)
deriving DecidableEq, Repr

/-- The line mutations of `_handleSuccessResponse` (lines 155-178): the card
details written when a `cardTransaction` is present, and the
`clover_*` settlement fields, with `clover_amount` from the terminal-reported
`payment.amount` in minor units when truthy, else the amount on the line. -/
def settleLine (line : Line) (r : Raw) : Line :=
  let payment := effPayment r
  let line :=
    match payment.cardTransaction with
    | some cardTx =>
      let line := { line with
        card_type := firstSome cardTx.cardType cardTx.type
        transaction_id := firstSome cardTx.referenceId payment.id
        cardholder_name := some (cardTx.cardholderName.getD "") }
      match cardTx.last4 with
      | some l4 => { line with receiptInfo := line.receiptInfo ++ ["Card: ****" ++ l4] }
      | none => line
    | none => line
  { line with
    clover_payment_id := payment.id
    clover_order_id := payment.order_id
    clover_result := some (r.result.getD "SUCCESS")
    clover_amount := some
      (match payment.amount with
       | some a => if a = 0 then line.amount else (a : ℚ) / 100
       | none => line.amount)
    clover_auth_code := payment.cardTransaction.bind (fun c => c.authCode)
    clover_card_type := payment.cardTransaction.bind (fun c => c.cardType)
    clover_card_last_four := payment.cardTransaction.bind (fun c => c.last4) }

/-- `_handleSuccessResponse(response, line)` (lines 155-184): write the
card details and the Clover settlement fields onto the line (`settleLine`),
fire the best-effort `thank_you` call (its answer `thankRes` is an input;
the function ignores the result but the shared `.catch` of `_callClover`
still runs on failure), and return `true`. -/
def handleSuccessResponse (st : PosState) (r : Raw)
    (thankRes : Except String (Option Raw)) : PosState × Bool :=
  ((callClover { st with line := settleLine st.line r } none "thank_you" thankRes).1, true)

/-- `_cloverHandleResponse(response, line)` (lines 116-150): the stateful
counterpart of `classifySync`, in the same first-match-wins order:
no response → error dialog + `force_done`; `response.error` → error dialog
(authentication-specific on 401) + `force_done`; success indicator →
`_handleSuccessResponse`; pending indicator → `waitingCard` + park a
resolver; otherwise declined → error dialog + `retry`. -/
def cloverHandleResponse (st : PosState) (response : Option Raw)
    (thankRes : Except String (Option Raw)) : PosState × PayResult :=
  match response with
  | none =>
    (setStatus (showError st "No response received from Clover terminal.") "force_done",
      .done false)
  | some r =>
    match r.error with
    | some e =>
      let st :=
        if e.status_code = some 401 then
          showError st "Authentication failed. Please check your Clover credentials."
        else
          showError st ("Clover error: " ++ (e.message.getD "Unknown error"))
      (setStatus st "force_done", .done false)
    | none =>
      if r.success || decide (r.result = some "SUCCESS") || r.payment.isSome then
        let p := handleSuccessResponse st r thankRes
        (p.1, .done p.2)
      else if decide (r.status = some "PENDING") || decide (r.result = some "PENDING") then
        (waitForPaymentConfirmation (setStatus st "waitingCard") st.line.uuid, .awaiting)
      else
        let message := (firstSome r.message r.reason).getD "Payment was not approved"
        (setStatus (showError st ("Payment declined: " ++ message)) "retry", .done false)

/-- `_cloverPay(uuid)` (lines 89-111): reject negative amounts before any
proxy call; send the best-effort `welcome` (a connectivity failure there
escapes the function as a rejection, since the `await` sits outside the
`try` block); then send `sale` and classify its reply, the `try`/`catch`
turning a `sale` transport failure into an error dialog + `retry` +
`false`.  The proxy answers are the `welcomeRes`/`saleRes`/`thankRes`
inputs. -/
def cloverPay (st : PosState)
    (welcomeRes saleRes thankRes : Except String (Option Raw)) :
    PosState × PayResult :=
  if st.line.amount < 0 then
    (showError st "Cannot process transactions with negative amount.", .done false)
  else
    let c1 := callClover st none "welcome" welcomeRes
    match c1.2 with
    | .error e => (c1.1, .rejected e)
    | .ok _ =>
      let data := cloverPayData c1.1
      let c2 := callClover c1.1 (some data) "sale" saleRes
      match c2.2 with
      | .error e =>
        (setStatus (showError c2.1 ("Payment request failed: " ++ e)) "retry", .done false)
      | .ok response => cloverHandleResponse c2.1 response thankRes

/-- `sendPaymentRequest(uuid)` (lines 20-23): the base-class hook
`super.sendPaymentRequest` is an external collaborator with no effect on
the modelled state; the request is `_cloverPay`. -/
def sendPaymentRequest (st : PosState)
    (welcomeRes saleRes thankRes : Except String (Option Raw)) :
    PosState × PayResult :=
  cloverPay st welcomeRes saleRes thankRes

/-- `handleCloverStatusResponse()` (lines 199-234): pull the latest status
(the pulled `notification` is an input, `none` = falsy answer →
`_handleOdooConnectionFailure`); return silently when no clover line is
pending; otherwise run the success handler or show the failure dialog
according to `asyncIsSuccess`, then either call and delete the parked
resolver for the uuid of the line, or fall back to
`line.handlePaymentResponse(isSuccess)`. -/
def handleCloverStatusResponse (st : PosState) (notification : Option Raw)
    (thankRes : Except String (Option Raw)) : PosState :=
  match notification with
  | none => handleOdooConnectionFailure st
  | some n =>
    match pendingCloverLine st with
    | none => st
    | some line =>
      let payment := effPayment n
      let isSuccess := asyncIsSuccess n
      let st :=
        if isSuccess then
          (handleSuccessResponse st n thankRes).1
        else
          showError st
            ("Payment failed: " ++
              ((firstSome payment.failureMessage payment.reason).getD "Payment failed"))
      match lookupRes st.resolvers line.uuid with
      | some rid =>
        { st with
          resolutions := st.resolutions ++ [(rid, isSuccess)]
          resolvers := delRes st.resolvers line.uuid }
      | none =>
        { st with line := { st.line with handled := st.line.handled ++ [isSuccess] } }

/-!
Basic lemmas about the embedded operations, used by the claim theorems below.
-/

lemma callClover_ok (st : PosState) (d : Option PayData) (op : String) (ro : Option Raw) :
    callClover st d op (.ok ro) =
      ({ st with proxyCalls := st.proxyCalls ++ [(op, d)] }, .ok ro) := rfl

lemma callClover_error (st : PosState) (d : Option PayData) (op : String) (e : String) :
    callClover st d op (.error e) =
      (handleOdooConnectionFailure { st with proxyCalls := st.proxyCalls ++ [(op, d)] },
        .error e) := rfl

lemma handleOdooConnectionFailure_def (st : PosState) :
    handleOdooConnectionFailure st =
      { st with
        line := { st.line with
          status := if st.linePending then some "retry" else st.line.status }
        errors := st.errors ++
          ["Could not connect to the Odoo server. Please check your internet connection and try again."] } := by
  unfold handleOdooConnectionFailure pendingCloverLine setStatus showError
  cases h : st.linePending <;> simp [h]

lemma settleLine_handled (l : Line) (r : Raw) :
    (settleLine l r).handled = l.handled := by
  simp only [settleLine]
  rcases h : (effPayment r).cardTransaction with _ | c <;> simp [h]
  rcases h4 : c.last4 with _ | l4 <;> simp [h4]

lemma settleLine_uuid (l : Line) (r : Raw) :
    (settleLine l r).uuid = l.uuid := by
  simp only [settleLine]
  rcases h : (effPayment r).cardTransaction with _ | c <;> simp [h]
  rcases h4 : c.last4 with _ | l4 <;> simp [h4]

lemma settleLine_amount (l : Line) (r : Raw) :
    (settleLine l r).amount = l.amount := by
  simp only [settleLine]
  rcases h : (effPayment r).cardTransaction with _ | c <;> simp [h]
  rcases h4 : c.last4 with _ | l4 <;> simp [h4]

lemma settleLine_status (l : Line) (r : Raw) :
    (settleLine l r).status = l.status := by
  simp only [settleLine]
  rcases h : (effPayment r).cardTransaction with _ | c <;> simp [h]
  rcases h4 : c.last4 with _ | l4 <;> simp [h4]

lemma settleLine_clover_amount (l : Line) (r : Raw) :
    (settleLine l r).clover_amount = some
      (match (effPayment r).amount with
       | some a => if a = 0 then l.amount else (a : ℚ) / 100
       | none => l.amount) := by
  simp only [settleLine]
  rcases h : (effPayment r).cardTransaction with _ | c <;> simp [h]
  rcases h4 : c.last4 with _ | l4 <;> simp [h4]


lemma handleSuccessResponse_fst (st : PosState) (r : Raw) (tr : Except String (Option Raw)) :
    (handleSuccessResponse st r tr).1 =
      match tr with
      | .ok _ =>
        { st with line := settleLine st.line r
                  proxyCalls := st.proxyCalls ++ [("thank_you", none)] }
      | .error _ =>
        handleOdooConnectionFailure
          { st with line := settleLine st.line r
                    proxyCalls := st.proxyCalls ++ [("thank_you", none)] } := by
  rcases tr with e | ro <;> rfl

lemma handleSuccessResponse_resolvers (st : PosState) (r : Raw)
    (tr : Except String (Option Raw)) :
    ((handleSuccessResponse st r tr).1).resolvers = st.resolvers := by
  rw [handleSuccessResponse_fst]
  rcases tr with e | ro
  · rw [handleOdooConnectionFailure_def]
  · rfl

lemma handleSuccessResponse_handled (st : PosState) (r : Raw)
    (tr : Except String (Option Raw)) :
    ((handleSuccessResponse st r tr).1).line.handled = st.line.handled := by
  rw [handleSuccessResponse_fst]
  rcases tr with e | ro
  · rw [handleOdooConnectionFailure_def]
    simp [settleLine_handled]
  · simp [settleLine_handled]

lemma handleSuccessResponse_uuid (st : PosState) (r : Raw)
    (tr : Except String (Option Raw)) :
    ((handleSuccessResponse st r tr).1).line.uuid = st.line.uuid := by
  rw [handleSuccessResponse_fst]
  rcases tr with e | ro
  · rw [handleOdooConnectionFailure_def]
    simp [settleLine_uuid]
  · simp [settleLine_uuid]

lemma handleSuccessResponse_linePending (st : PosState) (r : Raw)
    (tr : Except String (Option Raw)) :
    ((handleSuccessResponse st r tr).1).linePending = st.linePending := by
  rw [handleSuccessResponse_fst]
  rcases tr with e | ro
  · rw [handleOdooConnectionFailure_def]
  · rfl

lemma lookupRes_setRes (l : List (String × Nat)) (u : String) (i : Nat) :
    lookupRes (setRes l u i) u = some i := by
  induction l with
  | nil => simp [setRes, lookupRes]
  | cons p rest ih =>
    obtain ⟨k, v⟩ := p
    by_cases hk : k = u
    · simp [setRes, hk, lookupRes]
    · simp [setRes, hk, lookupRes, ih]

lemma mem_keys_setRes (l : List (String × Nat)) (u : String) (i : Nat) (x : String)
    (h : x ∈ (setRes l u i).map Prod.fst) : x ∈ l.map Prod.fst ∨ x = u := by
  induction l with
  | nil =>
    simp only [setRes, List.map_cons, List.map_nil, List.mem_cons, List.not_mem_nil,
      or_false] at h
    right; exact h
  | cons p rest ih =>
    obtain ⟨k, v⟩ := p
    by_cases hk : k = u
    · simp only [setRes, if_pos hk, List.map_cons, List.mem_cons] at h
      rcases h with h | h
      · right; exact h
      · left; simp only [List.map_cons, List.mem_cons]; right; exact h
    · simp only [setRes, if_neg hk, List.map_cons, List.mem_cons] at h
      rcases h with h | h
      · left; simp only [List.map_cons, List.mem_cons]; left; exact h
      · rcases ih h with h2 | h2
        · left; simp only [List.map_cons, List.mem_cons]; right; exact h2
        · right; exact h2

lemma setRes_keys_nodup (l : List (String × Nat)) (u : String) (i : Nat)
    (h : (l.map Prod.fst).Nodup) : ((setRes l u i).map Prod.fst).Nodup := by
  induction l with
  | nil => simp [setRes]
  | cons p rest ih =>
    obtain ⟨k, v⟩ := p
    simp only [List.map_cons, List.nodup_cons] at h
    obtain ⟨hk1, hk2⟩ := h
    by_cases hk : k = u
    · simp only [setRes, if_pos hk, List.map_cons, List.nodup_cons]
      exact ⟨by simpa [hk] using hk1, hk2⟩
    · simp only [setRes, if_neg hk, List.map_cons, List.nodup_cons]
      refine ⟨fun hmem => ?_, ih hk2⟩
      rcases mem_keys_setRes rest u i k hmem with h2 | h2
      · exact hk1 h2
      · exact hk h2

/-!
Claim theorems.
-/

/-- `_handleSuccessResponse` leaves `clover_amount` equal to the settlement
value computed by `settleLine`, whatever the `thank_you` call does. -/
lemma handleSuccessResponse_clover_amount (st : PosState) (r : Raw)
    (tr : Except String (Option Raw)) :
    ((handleSuccessResponse st r tr).1).line.clover_amount =
      (settleLine st.line r).clover_amount := by
  rw [handleSuccessResponse_fst]
  rcases tr with e | ro
  · rw [handleOdooConnectionFailure_def]
  · rfl

/-- The empty-object reply `{}`: present, but with no error, success, or
pending indicator. -/
def emptyRaw : Raw := {}

/-- A pending clover line in `waitingCard` state with uuid `u1`. -/
def c3State : PosState :=
  { line := { uuid := "u1", status := some "waitingCard" }, linePending := true }

/-- C3 counterexample: the empty-object reply `{}` is NOT classified as a
terminal error with message "no response"; it falls through to the declined
bucket and the line is set to `retry`, not `force_done`. -/
theorem c3_empty_reply_counterexample :
    classifySync (some emptyRaw) = .declined "Payment was not approved" ∧
    classifySync (some emptyRaw) ≠
      .terminalError "No response received from Clover terminal." ∧
    (cloverHandleResponse c3State (some emptyRaw) (.ok none)).1.line.status = some "retry" ∧
    (cloverHandleResponse c3State (some emptyRaw) (.ok none)).1.line.status ≠
      some "force_done" := by
  decide

/-- C3 (amended): only an absent (falsy) reply is classified as the
"no response" terminal error with the line forced to `force_done`; the empty
object `{}` instead classifies as declined ("Payment was not approved") and
the line is set to `retry`. -/
theorem c3_no_response_vs_empty (st : PosState) (tr : Except String (Option Raw)) :
    classifySync none = .terminalError "No response received from Clover terminal." ∧
    (cloverHandleResponse st none tr).1.line.status = some "force_done" ∧
    (cloverHandleResponse st none tr).2 = .done false ∧
    (cloverHandleResponse st none tr).1.errors =
      st.errors ++ ["No response received from Clover terminal."] ∧
    classifySync (some emptyRaw) = .declined "Payment was not approved" ∧
    (cloverHandleResponse st (some emptyRaw) tr).1.line.status = some "retry" ∧
    (cloverHandleResponse st (some emptyRaw) tr).2 = .done false := by
  refine ⟨rfl, rfl, rfl, rfl, by decide, rfl, rfl⟩

/-- A state with a resolver (id 0) already registered for line `u1`. -/
def c4State : PosState :=
  { line := { uuid := "u1" }, resolvers := [("u1", 0)], nextResolverId := 1 }

/-- C4 counterexample: registering a second waiter for `u1` while resolver 0
is outstanding is neither rejected nor warned about: the write goes through,
silently replacing resolver 0 with the fresh resolver 1, and no dialog is
shown. -/
theorem c4_silent_overwrite_counterexample :
    (waitForPaymentConfirmation c4State "u1").resolvers = [("u1", 1)] ∧
    lookupRes (waitForPaymentConfirmation c4State "u1").resolvers "u1" = some 1 ∧
    (waitForPaymentConfirmation c4State "u1").errors = [] := by
  decide

/-- C4 (amended): the resolver table keyed by uuid holds at most one waiter
per line identity (key-uniqueness is preserved by registration), but a second
registration for the same identity silently overwrites the first: the fresh
resolver is installed and no error dialog is produced. -/
theorem c4_at_most_one_waiter (st : PosState) (u : String)
    (h : (st.resolvers.map Prod.fst).Nodup) :
    ((waitForPaymentConfirmation st u).resolvers.map Prod.fst).Nodup ∧
    lookupRes (waitForPaymentConfirmation st u).resolvers u = some st.nextResolverId ∧
    (waitForPaymentConfirmation st u).errors = st.errors := by
  unfold waitForPaymentConfirmation
  exact ⟨setRes_keys_nodup _ _ _ h, lookupRes_setRes _ _ _, rfl⟩

/-- Witness for `c4_at_most_one_waiter` at the concrete `c4State`. -/
theorem c4_at_most_one_waiter_witness :
    lookupRes (waitForPaymentConfirmation c4State "u1").resolvers "u1" = some 1 ∧
    (waitForPaymentConfirmation c4State "u1").errors = [] :=
  ⟨(c4_at_most_one_waiter c4State "u1" (by decide)).2.1,
   (c4_at_most_one_waiter c4State "u1" (by decide)).2.2⟩

/-- A line with the negative amount -5. -/
def c5State : PosState := { line := { uuid := "u1", amount := -5 } }

/-- C5: for a negative line amount, `sendPaymentRequest` settles to `false`,
the line (status included) is untouched, no proxy call at all is made, and
the negative-amount dialog is shown. -/
theorem c5_negative_amount (st : PosState)
    (welcomeRes saleRes thankRes : Except String (Option Raw))
    (h : st.line.amount < 0) :
    (sendPaymentRequest st welcomeRes saleRes thankRes).2 = .done false ∧
    (sendPaymentRequest st welcomeRes saleRes thankRes).1.line = st.line ∧
    (sendPaymentRequest st welcomeRes saleRes thankRes).1.proxyCalls = st.proxyCalls ∧
    (sendPaymentRequest st welcomeRes saleRes thankRes).1.errors =
      st.errors ++ ["Cannot process transactions with negative amount."] := by
  unfold sendPaymentRequest cloverPay showError
  rw [if_pos h]
  exact ⟨rfl, rfl, rfl, rfl⟩

/-- Witness for `c5_negative_amount` at amount -5. -/
theorem c5_negative_amount_witness :
    (sendPaymentRequest c5State (.ok none) (.ok none) (.ok none)).2 = .done false ∧
    (sendPaymentRequest c5State (.ok none) (.ok none) (.ok none)).1.line = c5State.line ∧
    (sendPaymentRequest c5State (.ok none) (.ok none) (.ok none)).1.proxyCalls = [] ∧
    (sendPaymentRequest c5State (.ok none) (.ok none) (.ok none)).1.errors =
      ["Cannot process transactions with negative amount."] :=
  c5_negative_amount c5State (.ok none) (.ok none) (.ok none)
    (by show (-5 : ℚ) < 0; norm_num)

/-- A pending clover line in `waiting` state. -/
def c6State : PosState :=
  { line := { uuid := "u1", status := some "waiting" }, linePending := true }

/-- C6: when a proxy call fails at the transport level, the pending line is
moved to `retry` and the connectivity dialog shown in the same step that
returns the rejection to the caller, for every operation. -/
theorem c6_connectivity_sets_retry (st : PosState) (data : Option PayData)
    (op : String) (e : String) (h : st.linePending = true) :
    (callClover st data op (.error e)).2 = .error e ∧
    (callClover st data op (.error e)).1.line.status = some "retry" ∧
    (callClover st data op (.error e)).1.errors = st.errors ++
      ["Could not connect to the Odoo server. Please check your internet connection and try again."] := by
  rw [callClover_error, handleOdooConnectionFailure_def]
  simp [h]

/-- Witness for `c6_connectivity_sets_retry` on a failing `sale` call. -/
theorem c6_connectivity_sets_retry_witness :
    (callClover c6State none "sale" (.error "timeout")).2 = .error "timeout" ∧
    (callClover c6State none "sale" (.error "timeout")).1.line.status = some "retry" ∧
    (callClover c6State none "sale" (.error "timeout")).1.errors =
      ["Could not connect to the Odoo server. Please check your internet connection and try again."] :=
  c6_connectivity_sets_retry c6State none "sale" "timeout" rfl

/-- C10: when the terminal-reported `payment.amount` is absent or 0 (both
falsy), `_handleSuccessResponse` records the requested line amount as
`clover_amount`, never the terminal-reported 0. -/
theorem c10_falsy_amount_uses_line_amount (st : PosState) (r : Raw)
    (tr : Except String (Option Raw))
    (h : (effPayment r).amount = none ∨ (effPayment r).amount = some 0) :
    (handleSuccessResponse st r tr).1.line.clover_amount = some st.line.amount := by
  rw [handleSuccessResponse_clover_amount, settleLine_clover_amount]
  rcases h with h | h <;> simp [h]

/-- A line with requested amount 7 and a success response reporting amount 0. -/
def c10State : PosState := { line := { uuid := "u1", amount := 7 } }

/-- The success payload of the C10 witness: terminal reports `amount: 0`. -/
def c10Raw : Raw := { success := true, payment := some { id := some "p1", amount := some 0 } }

/-- Witness for `c10_falsy_amount_uses_line_amount`: the terminal-reported 0
is replaced by the requested amount 7. -/
theorem c10_falsy_amount_uses_line_amount_witness :
    (handleSuccessResponse c10State c10Raw (.ok none)).1.line.clover_amount = some 7 :=
  c10_falsy_amount_uses_line_amount c10State c10Raw (.ok none) (Or.inr rfl)

/-- The state of the C1 scenario: line `u1` waiting for confirmation with
resolver 0 parked. -/
def c1State : PosState :=
  { line := { uuid := "u1", amount := 10, status := some "waitingCard" }
    linePending := true
    resolvers := [("u1", 0)]
    nextResolverId := 1 }

/-- A success notification with a `payment` sub-object. -/
def c1Notif : Raw := { payment := some { result := some "SUCCESS", id := some "p1" } }

/-- C1 counterexample: after the first delivery consumed and deleted the
resolver of line `u1`, a second delivery of the same notification is NOT a
no-op on the still-pending line: the state changes again, in particular the
fallback `handlePaymentResponse(true)` is invoked on the line. -/
theorem c1_second_delivery_counterexample :
    lookupRes (handleCloverStatusResponse c1State (some c1Notif) (.ok none)).resolvers
      "u1" = none ∧
    handleCloverStatusResponse (handleCloverStatusResponse c1State (some c1Notif) (.ok none))
        (some c1Notif) (.ok none) ≠
      handleCloverStatusResponse c1State (some c1Notif) (.ok none) ∧
    (handleCloverStatusResponse (handleCloverStatusResponse c1State (some c1Notif) (.ok none))
        (some c1Notif) (.ok none)).line.handled = [true] := by
  decide

/-- C1 (amended): once no resolver is registered for the uuid of the line, a
further delivery is a no-op only when the line is no longer pending; while
the line is still pending, the delivery is NOT a no-op: it falls back to
`line.handlePaymentResponse(isSuccess)`, recording a direct update on the
line. -/
theorem c1_post_resolution_delivery (st : PosState) (n : Raw)
    (tr : Except String (Option Raw))
    (h : lookupRes st.resolvers st.line.uuid = none) :
    (st.linePending = false → handleCloverStatusResponse st (some n) tr = st) ∧
    (st.linePending = true →
      (handleCloverStatusResponse st (some n) tr).line.handled =
        st.line.handled ++ [asyncIsSuccess n]) := by
  unfold handleCloverStatusResponse pendingCloverLine
  constructor
  · intro hp; simp [hp]
  · intro hp
    simp only [hp, if_pos rfl]
    cases hS : asyncIsSuccess n
    · simp [hS, showError, h]
    · simp [hS, handleSuccessResponse_resolvers, handleSuccessResponse_handled, h]

/-- A no-longer-pending line with an empty resolver table. -/
def c1DoneState : PosState :=
  { line := { uuid := "u1", status := some "done" }, linePending := false }

/-- Witness for `c1_post_resolution_delivery`: with no resolver and no
pending line, the delivery leaves the state untouched. -/
theorem c1_post_resolution_delivery_witness :
    handleCloverStatusResponse c1DoneState (some c1Notif) (.ok none) = c1DoneState :=
  (c1_post_resolution_delivery c1DoneState c1Notif (.ok none) rfl).1 rfl

/-- A payload carrying only a `payment` sub-object: synchronously a success
indicator, asynchronously not one. -/
def c2Raw : Raw := { payment := some { id := some "p1" } }

/-- C2 counterexample: the two delivery paths disagree on the payload
`{payment: {id: "p1"}}` — the synchronous classifier buckets it as success,
the asynchronous success test does not. -/
theorem c2_paths_disagree_counterexample :
    classifySync (some c2Raw) = .success ∧ asyncIsSuccess c2Raw = false := by
  decide

/-- C2 (amended): the asynchronous path does not reuse the synchronous
classifier; agreement only holds one way on error-free payloads: whenever
the asynchronous success test accepts an error-free payload, the synchronous
classifier also buckets it as success. -/
theorem c2_async_success_implies_sync_success (r : Raw) (he : r.error = none)
    (hs : asyncIsSuccess r = true) :
    classifySync (some r) = .success := by
  unfold asyncIsSuccess at hs
  rcases Bool.or_eq_true_iff.mp hs with h | h
  · have h' := of_decide_eq_true h
    cases hp : r.payment with
    | some p => simp [classifySync, he, hp]
    | none =>
      have hres : r.result = some "SUCCESS" := by
        unfold effPayment at h'
        rw [hp] at h'
        exact h'
      simp [classifySync, he, hres]
  · simp [classifySync, he, h]

/-- An error-free payload with a truthy `success` flag. -/
def c2SuccessRaw : Raw := { success := true }

/-- Witness for `c2_async_success_implies_sync_success` on `{success: true}`. -/
theorem c2_async_success_implies_sync_success_witness :
    classifySync (some c2SuccessRaw) = .success :=
  c2_async_success_implies_sync_success c2SuccessRaw rfl rfl

/-- The state of the C7 scenario: clover line still pending in `waitingCard`. -/
def c7State : PosState :=
  { line := { uuid := "u1", status := some "waitingCard" }, linePending := true }

/-- A success response with a `payment` sub-object. -/
def c7Raw : Raw := { success := true, payment := some { id := some "p1" } }

/-- C7 counterexample: running the success path with the `thank_you` proxy
call failing does NOT leave the state identical to running it with the call
succeeding: the connectivity dialog is shown and the still-pending line is
moved to `retry`. -/
theorem c7_thank_you_failure_counterexample :
    (handleSuccessResponse c7State c7Raw (.error "timeout")).1.line.status = some "retry" ∧
    (handleSuccessResponse c7State c7Raw (.ok none)).1.line.status = some "waitingCard" ∧
    (handleSuccessResponse c7State c7Raw (.error "timeout")).1.errors =
      ["Could not connect to the Odoo server. Please check your internet connection and try again."] ∧
    (handleSuccessResponse c7State c7Raw (.ok none)).1.errors = [] := by
  decide

/-- C7 (amended): a `thank_you` transport failure leaves the settlement
fields and the returned value of the success path unchanged, but it is not
swallowed: the shared connectivity handler of `_callClover` runs, so the
connectivity dialog is shown and the still-pending line is moved to `retry`
(only the status differs from the run whose `thank_you` call succeeded). -/
theorem c7_thank_you_failure_effects (st : PosState) (r : Raw) (e : String)
    (ro : Option Raw) (h : st.linePending = true) :
    (handleSuccessResponse st r (.error e)).1.line =
      { (handleSuccessResponse st r (.ok ro)).1.line with status := some "retry" } ∧
    (handleSuccessResponse st r (.error e)).2 = (handleSuccessResponse st r (.ok ro)).2 ∧
    (handleSuccessResponse st r (.error e)).1.errors =
      (handleSuccessResponse st r (.ok ro)).1.errors ++
        ["Could not connect to the Odoo server. Please check your internet connection and try again."] := by
  rw [handleSuccessResponse_fst, handleSuccessResponse_fst, handleOdooConnectionFailure_def]
  refine ⟨?_, rfl, rfl⟩
  simp [h]

/-- Witness for `c7_thank_you_failure_effects` at the concrete C7 scenario. -/
theorem c7_thank_you_failure_effects_witness :
    (handleSuccessResponse c7State c7Raw (.error "timeout")).1.line =
      { (handleSuccessResponse c7State c7Raw (.ok none)).1.line with status := some "retry" } ∧
    (handleSuccessResponse c7State c7Raw (.error "timeout")).2 =
      (handleSuccessResponse c7State c7Raw (.ok none)).2 ∧
    (handleSuccessResponse c7State c7Raw (.error "timeout")).1.errors =
      (handleSuccessResponse c7State c7Raw (.ok none)).1.errors ++
        ["Could not connect to the Odoo server. Please check your internet connection and try again."] :=
  c7_thank_you_failure_effects c7State c7Raw "timeout" none rfl

/-- C8: an `error` field always wins: the classification is a terminal error
and never success, even when a success-looking indicator is present; a 401
status code selects the authentication-specific message; the stateful
handler forces the line to `force_done` and settles `false`. -/
theorem c8_error_beats_success (r : Raw) (e : ErrObj) (he : r.error = some e)
    (_hs : r.success = true ∨ r.result = some "SUCCESS" ∨ r.payment.isSome = true) :
    (∃ m, classifySync (some r) = .terminalError m) ∧
    classifySync (some r) ≠ .success ∧
    (e.status_code = some 401 →
      classifySync (some r) =
        .terminalError "Authentication failed. Please check your Clover credentials.") ∧
    ∀ (st : PosState) (tr : Except String (Option Raw)),
      (cloverHandleResponse st (some r) tr).1.line.status = some "force_done" ∧
      (cloverHandleResponse st (some r) tr).2 = .done false := by
  refine ⟨?_, ?_, ?_, ?_⟩
  · by_cases h4 : e.status_code = some 401
    · exact ⟨"Authentication failed. Please check your Clover credentials.",
        by simp [classifySync, he, h4]⟩
    · exact ⟨"Clover error: " ++ e.message.getD "Unknown error",
        by simp [classifySync, he, h4]⟩
  · by_cases h4 : e.status_code = some 401 <;> simp [classifySync, he, h4]
  · intro h4
    simp [classifySync, he, h4]
  · intro st tr
    by_cases h4 : e.status_code = some 401 <;>
      simp [cloverHandleResponse, he, h4, setStatus, showError]

/-- The 401 error payload of the C8 witness, with a competing success flag. -/
def c8Raw : Raw :=
  { error := some { status_code := some 401, message := some "boom" }, success := true }

/-- Witness for `c8_error_beats_success`: the 401 error with a success flag
classifies as the authentication terminal error. -/
theorem c8_error_beats_success_witness :
    classifySync (some c8Raw) =
      .terminalError "Authentication failed. Please check your Clover credentials." :=
  (c8_error_beats_success c8Raw { status_code := some 401, message := some "boom" }
    rfl (Or.inl rfl)).2.2.1 rfl

/-- C9: for a line amount exactly representable with two decimal digits
(`n` minor units), the request builder produces exactly `n` as the wire
amount, dividing it back by 100 recovers the amount, and feeding a success
response reporting that wire amount through `_handleSuccessResponse` records
the original line amount as `clover_amount`. -/
theorem c9_amount_round_trip (st : PosState) (n : ℤ)
    (tr : Except String (Option Raw)) (h : st.line.amount = (n : ℚ) / 100) :
    (cloverPayData st).amount = n ∧
    (((cloverPayData st).amount : ℚ)) / 100 = st.line.amount ∧
    (handleSuccessResponse st
        { payment := some { amount := some (cloverPayData st).amount } }
        tr).1.line.clover_amount = some st.line.amount := by
  have hmul : st.line.amount * 100 = (n : ℚ) := by
    rw [h]; field_simp
  have hround : jsRound ((n : ℚ)) = n := by
    unfold jsRound
    rw [show ((n : ℚ) + 1 / 2) = (n : ℤ) + (1 / 2 : ℚ) by norm_num]
    rw [Int.floor_int_add]
    norm_num
  have hamount : (cloverPayData st).amount = n := by
    simp [cloverPayData, hmul, hround]
  refine ⟨hamount, ?_, ?_⟩
  · rw [hamount, h]
  · rw [handleSuccessResponse_clover_amount, settleLine_clover_amount]
    rw [hamount]
    by_cases hz : n = 0
    · simp [effPayment, Raw.asPayment, hz, h]
    · simp [effPayment, Raw.asPayment, hz, h]

/-- The line of the C9 witness, amount 12.34. -/
def c9State : PosState := { line := { uuid := "u1", amount := (1234 : ℚ) / 100 } }

/-- Witness for `c9_amount_round_trip` at 12.34: the wire amount is 1234
minor units and converting back recovers 12.34. -/
theorem c9_amount_round_trip_witness :
    (cloverPayData c9State).amount = 1234 ∧
    (((cloverPayData c9State).amount : ℚ)) / 100 = (1234 : ℚ) / 100 :=
  ⟨(c9_amount_round_trip c9State 1234 (.ok none) rfl).1,
   (c9_amount_round_trip c9State 1234 (.ok none) rfl).2.1⟩

end CloverPos
